import Mathlib

/-!
# Verification of the activity-logging application core

This file embeds the core of the `super-adventure` activity logger:
the record data model (`types.ts`), the entry-form state machine
(`LogEntryForm`), and the Coordinator's save/delete operations
(`App.tsx`), and proves the specification's claims about them.

JavaScript `Date` values are modelled as broken-down calendar instants
in a single uniform timezone (the repository's own tests run in UTC,
where local time and ISO/UTC time coincide). JavaScript string
builtins used by the code (`trim`, `split`, `padStart`, `Number`,
`toString`) are modelled by executable Lean functions below.
-/

namespace DogLog

/-! ## Enumerations (src/types.ts) -/

inductive LogType where
  | Bathroom
  | Meal
deriving DecidableEq, Repr

inductive BathroomActivity where
  | Pee
  | Poop
  | Both
deriving DecidableEq, Repr

inductive MealSubtype where
  | Given
  | Stolen
deriving DecidableEq, Repr

inductive PoopSubtype where
  | Small
  | Normal
  | Huge
  | Sick
deriving DecidableEq, Repr

/-- A JavaScript `Date`, broken down into calendar fields in one uniform
timezone (see the file header). -/
structure DateTime where
  year : Nat
  month : Nat
  day : Nat
  hours : Nat
  minutes : Nat
  seconds : Nat
  milliseconds : Nat
deriving DecidableEq, Repr

/-- `LogEntryData` (src/types.ts): the unsaved/transient record shape.
`none` models an absent (`undefined`) optional field. -/
structure LogEntryData where
  type : LogType
  activity : Option BathroomActivity := none
  poopSubtype : Option PoopSubtype := none
  notes : Option String := none
  timestamp : Option DateTime := none
  mealSubtype : Option MealSubtype := none
  foodType : Option String := none
deriving DecidableEq, Repr

/-- `LogEntry` (src/types.ts): a persisted record, with a mandatory id
and a mandatory timestamp. -/
structure LogEntry where
  id : String
  timestamp : DateTime
  type : LogType
  activity : Option BathroomActivity := none
  poopSubtype : Option PoopSubtype := none
  notes : Option String := none
  mealSubtype : Option MealSubtype := none
  foodType : Option String := none
deriving DecidableEq, Repr

/-! ## JavaScript string builtins, modelled -/

/-- JS `String.prototype.trim`: strip whitespace from both ends. -/
def jsTrim (s : String) : String :=
  String.mk (((s.toList.dropWhile Char.isWhitespace).reverse.dropWhile
    Char.isWhitespace).reverse)

/-- Auxiliary for `jsSplit`: split a character list at each occurrence of
the separator character. -/
def splitCharAux (c : Char) : List Char → List Char → List (List Char)
  | [], acc => [acc.reverse]
  | x :: xs, acc =>
      if x = c then acc.reverse :: splitCharAux c xs []
      else splitCharAux c xs (x :: acc)

/-- JS `String.prototype.split` with a single-character separator. -/
def jsSplit (c : Char) (s : String) : List String :=
  (splitCharAux c s.toList []).map String.mk

/-- Auxiliary for `jsNumber`: read a decimal digit list left to right. -/
def parseDigits : List Char → Nat → Nat
  | [], acc => acc
  | c :: cs, acc => parseDigits cs (acc * 10 + (c.toNat - 48))

/-- JS `Number(s)` on the digit strings produced by date/time inputs
(`"2023"`, `"01"`, `"45"`); non-numeric input is out of scope for those
inputs. -/
def jsNumber (s : String) : Nat :=
  parseDigits s.toList 0

/-- JS `String.prototype.padStart(n, '0')`. -/
def padStartZero (n : Nat) (s : String) : String :=
  if s.length < n then String.mk (List.replicate (n - s.length) '0') ++ s
  else s

/-- JS `x || dflt` on an optional string field: `undefined` and the
empty string are both falsy. -/
def jsOrString (o : Option String) (dflt : String) : String :=
  match o with
  | none => dflt
  | some s => if s = "" then dflt else s

/-! ## Date formatting helpers (LogEntryForm, lines 10-18) -/

/-- `formatDateForInput`: `date.toISOString().split('T')[0]`, i.e. the
zero-padded `YYYY-MM-DD` part of the ISO string. -/
def formatDateForInput (d : DateTime) : String :=
  padStartZero 4 (toString d.year) ++ "-" ++ padStartZero 2 (toString d.month)
    ++ "-" ++ padStartZero 2 (toString d.day)

/-- `formatTimeForInput`: zero-padded `HH:MM` from `getHours`/`getMinutes`. -/
def formatTimeForInput (d : DateTime) : String :=
  padStartZero 2 (toString d.hours) ++ ":" ++ padStartZero 2 (toString d.minutes)

/-- JS `new Date(s)` on a date-input string `YYYY-MM-DD` (also accepts
`YYYY-MM` and `YYYY`, which JS reads as the first day/month): the named
calendar day at midnight. -/
def parseDateOnly (s : String) : DateTime :=
  match (jsSplit '-' s).map jsNumber with
  | y :: mo :: d :: _ => ⟨y, mo, d, 0, 0, 0, 0⟩
  | [y, mo] => ⟨y, mo, 1, 0, 0, 0, 0⟩
  | [y] => ⟨y, 1, 1, 0, 0, 0, 0⟩
  | [] => ⟨0, 1, 1, 0, 0, 0, 0⟩

/-- `editTime.split(':').map(Number)` destructured as `[hours, minutes]`,
for the `HH:MM` strings a time input produces. -/
def parseTimeParts (s : String) : Nat × Nat :=
  match (jsSplit ':' s).map jsNumber with
  | h :: m :: _ => (h, m)
  | [h] => (h, 0)
  | [] => (0, 0)

/-! ## Entry-form state machine (LogEntryForm, lines 20-112) -/

/-- The form's state variables (`useState` hooks, lines 21-28). -/
structure FormState where
  entryType : LogType
  bathroomActivity : BathroomActivity
  poopSubtype : PoopSubtype
  mealNotes : String
  editDate : String
  editTime : String
  mealSubtype : MealSubtype
  foodType : String
deriving DecidableEq, Repr

/-- The initial values of the `useState` hooks (lines 21-28), which is
also the reset-to-new-entry state (lines 50-60). -/
def initialFormState : FormState :=
  { entryType := LogType.Bathroom
    bathroomActivity := BathroomActivity.Pee
    poopSubtype := PoopSubtype.Normal
    mealNotes := ""
    editDate := ""
    editTime := ""
    mealSubtype := MealSubtype.Given
    foodType := "Kibble" }

/-- The `useEffect` initialization/reset procedure (lines 30-61), re-run
whenever the editing-entry reference changes. -/
def resetForm (editingEntry : Option LogEntry) : FormState :=
  match editingEntry with
  | some e =>
      match e.type with
      | LogType.Bathroom =>
          { entryType := e.type
            bathroomActivity := e.activity.getD BathroomActivity.Pee
            poopSubtype := e.poopSubtype.getD PoopSubtype.Normal
            mealNotes := ""
            mealSubtype := MealSubtype.Given
            foodType := "Kibble"
            editDate := formatDateForInput e.timestamp
            editTime := formatTimeForInput e.timestamp }
      | LogType.Meal =>
          { entryType := e.type
            mealNotes := jsOrString e.notes ""
            mealSubtype := e.mealSubtype.getD MealSubtype.Given
            foodType := jsOrString e.foodType "Kibble"
            bathroomActivity := BathroomActivity.Pee
            poopSubtype := PoopSubtype.Normal
            editDate := formatDateForInput e.timestamp
            editTime := formatTimeForInput e.timestamp }
  | none => initialFormState

/-- `handleEntryTypeChange` (lines 63-76). -/
def handleEntryTypeChange (s : FormState) (newType : LogType) : FormState :=
  let s' := { s with entryType := newType }
  match newType with
  | LogType.Bathroom =>
      { s' with mealNotes := ""
                mealSubtype := MealSubtype.Given
                foodType := "Kibble"
                poopSubtype := PoopSubtype.Normal }
  | LogType.Meal =>
      { s' with bathroomActivity := BathroomActivity.Pee
                poopSubtype := PoopSubtype.Normal }

/-- `handleBathroomActivityChange` (lines 78-83). -/
def handleBathroomActivityChange (s : FormState) (newActivity : BathroomActivity) :
    FormState :=
  let s' := { s with bathroomActivity := newActivity }
  if newActivity = BathroomActivity.Pee then
    { s' with poopSubtype := PoopSubtype.Normal }
  else s'

/-- Plain field setters from the input `onChange` handlers. -/
def setPoopSubtype (s : FormState) (v : PoopSubtype) : FormState :=
  { s with poopSubtype := v }

def setMealSubtype (s : FormState) (v : MealSubtype) : FormState :=
  { s with mealSubtype := v }

def setFoodType (s : FormState) (v : String) : FormState :=
  { s with foodType := v }

def setMealNotes (s : FormState) (v : String) : FormState :=
  { s with mealNotes := v }

def setEditDate (s : FormState) (v : String) : FormState :=
  { s with editDate := v }

def setEditTime (s : FormState) (v : String) : FormState :=
  { s with editTime := v }

/-- `handleSubmit` (lines 86-112): builds the normalized payload and the
optional id to update, as passed to `onSaveEntry`. -/
def handleSubmit (editingEntry : Option LogEntry) (s : FormState) :
    LogEntryData × Option String :=
  let base : LogEntryData := { type := s.entryType }
  let withFields : LogEntryData :=
    match s.entryType with
    | LogType.Bathroom =>
        let d := { base with activity := some s.bathroomActivity }
        if s.bathroomActivity = BathroomActivity.Poop ∨
            s.bathroomActivity = BathroomActivity.Both then
          { d with poopSubtype := some s.poopSubtype }
        else d
    | LogType.Meal =>
        { base with
            mealSubtype := some s.mealSubtype
            foodType := some (if jsTrim s.foodType = "" then "Kibble"
                              else jsTrim s.foodType)
            notes := some (jsTrim s.mealNotes) }
  let withTimestamp : LogEntryData :=
    match editingEntry with
    | some e =>
        if s.editDate ≠ "" ∧ s.editTime ≠ "" then
          let hm := parseTimeParts s.editTime
          let d0 := parseDateOnly s.editDate
          { withFields with
              timestamp := some { d0 with
                hours := hm.1
                minutes := hm.2
                seconds := e.timestamp.seconds
                milliseconds := e.timestamp.milliseconds } }
        else withFields
    | none => withFields
  (withTimestamp, editingEntry.map (fun e => e.id))

/-! ## Application Coordinator (App.tsx) -/

/-- A timestamp value as written to the document store: either a concrete
converted `Date` (`Timestamp.fromDate`) or the `serverTimestamp()`
sentinel, resolved by the backend at write time. -/
inductive TimestampValue where
  | fromDate (d : DateTime)
  | serverStamp
deriving DecidableEq, Repr

/-- A document in the `log_entries` collection, field-presence explicit:
`none` means the field is absent from the document. -/
structure FirestoreDoc where
  type : Option LogType := none
  activity : Option BathroomActivity := none
  poopSubtype : Option PoopSubtype := none
  notes : Option String := none
  timestamp : Option TimestampValue := none
  mealSubtype : Option MealSubtype := none
  foodType : Option String := none
deriving DecidableEq, Repr

/-- `dataToSave` preparation in `saveLogEntry` (App.tsx lines 92-104):
spread the payload, convert a JS `Date` timestamp, supply
`serverTimestamp()` for a new entry with no timestamp, and drop
`undefined` fields. -/
def prepareDataToSave (entryData : LogEntryData) (idToUpdate : Option String) :
    FirestoreDoc :=
  let ts : Option TimestampValue :=
    match entryData.timestamp with
    | some d => some (TimestampValue.fromDate d)
    | none =>
        match idToUpdate with
        | none => some TimestampValue.serverStamp
        | some _ => none
  { type := some entryData.type
    activity := entryData.activity
    poopSubtype := entryData.poopSubtype
    notes := entryData.notes
    timestamp := ts
    mealSubtype := entryData.mealSubtype
    foodType := entryData.foodType }

/-- One field of a Firestore `updateDoc` merge: a field present in the
update payload overwrites, an absent field is left unmodified. -/
def mergeField {α : Type} (old upd : Option α) : Option α :=
  match upd with
  | some v => some v
  | none => old

/-- Firestore `updateDoc`: merge the update payload's present fields into
the stored document. -/
def updateDocMerge (old upd : FirestoreDoc) : FirestoreDoc :=
  { type := mergeField old.type upd.type
    activity := mergeField old.activity upd.activity
    poopSubtype := mergeField old.poopSubtype upd.poopSubtype
    notes := mergeField old.notes upd.notes
    timestamp := mergeField old.timestamp upd.timestamp
    mealSubtype := mergeField old.mealSubtype upd.mealSubtype
    foodType := mergeField old.foodType upd.foodType }

/-- Resolve a `serverTimestamp()` sentinel to the backend's clock when a
document is committed. -/
def resolveTimestamp (serverNow : DateTime) : TimestampValue → DateTime
  | TimestampValue.fromDate d => d
  | TimestampValue.serverStamp => serverNow

/-- The document store: an association list from id to document. -/
abbrev Store := List (String × FirestoreDoc)

/-- The backend effect of `saveLogEntry` (App.tsx lines 86-128) on the
document store: prepare `dataToSave`; for an update, delete the
timestamp from the update payload unless the form payload carried an
explicit `Date`, then merge into the stored document; for a new entry,
add a fresh document under `newId`, resolving any server-timestamp
sentinel against the backend clock `serverNow`. -/
def saveLogEntry (store : Store) (serverNow : DateTime) (newId : String)
    (entryData : LogEntryData) (idToUpdate : Option String) : Store :=
  let dataToSave := prepareDataToSave entryData idToUpdate
  match idToUpdate with
  | some id =>
      let dataToSave' :=
        match entryData.timestamp with
        | some _ => dataToSave
        | none => { dataToSave with timestamp := none }
      store.map (fun p => if p.1 = id then (p.1, updateDocMerge p.2 dataToSave') else p)
  | none =>
      store ++ [(newId,
        { dataToSave with
            timestamp := (dataToSave.timestamp).map
              (fun t => TimestampValue.fromDate (resolveTimestamp serverNow t)) })]

/-! ## Auxiliary predicates for the idempotence claim -/

/-- The submitted payload `p` agrees with entry `e` on the fields relevant
to `e`'s type: meal subtype, food type and notes for a Meal; bathroom
activity and poop subtype for a Bathroom entry. -/
def typeRelevantAgrees (p : LogEntryData) (e : LogEntry) : Prop :=
  match e.type with
  | LogType.Meal =>
      p.mealSubtype = e.mealSubtype ∧ p.foodType = e.foodType ∧ p.notes = e.notes
  | LogType.Bathroom =>
      p.activity = e.activity ∧ p.poopSubtype = e.poopSubtype

/-- Seeding the form with `e` and submitting with no user changes yields a
payload agreeing with `e` on its type-relevant fields. -/
def seedSubmitReproduces (e : LogEntry) : Prop :=
  typeRelevantAgrees (handleSubmit (some e) (resetForm (some e))).1 e

/-- An entry is in the form's normal shape: its type-relevant optional
sub-fields are present (with `poopSubtype` present exactly when the
activity implies poop), and its text fields are trimmed and the food
type non-empty. -/
def normalizedEntry (e : LogEntry) : Prop :=
  match e.type with
  | LogType.Meal =>
      (e.mealSubtype).isSome ∧
      (match e.foodType with
       | some ft => jsTrim ft = ft ∧ ft ≠ ""
       | none => False) ∧
      (match e.notes with
       | some ns => jsTrim ns = ns
       | none => False)
  | LogType.Bathroom =>
      match e.activity with
      | none => False
      | some a =>
          if a = BathroomActivity.Poop ∨ a = BathroomActivity.Both then
            (e.poopSubtype).isSome
          else e.poopSubtype = none

instance (p : LogEntryData) (e : LogEntry) : Decidable (typeRelevantAgrees p e) := by
  unfold typeRelevantAgrees
  cases e.type <;> exact inferInstance

instance (e : LogEntry) : Decidable (normalizedEntry e) := by
  rcases e with ⟨id, ts, ty, act, ps, nts, ms, ft⟩
  unfold normalizedEntry
  cases ty
  case Bathroom =>
    cases act with
    | none => exact inferInstance
    | some a => exact inferInstance
  case Meal =>
    cases ft <;> cases nts <;> exact inferInstance

instance (e : LogEntry) : Decidable (seedSubmitReproduces e) := by
  unfold seedSubmitReproduces
  exact inferInstance

/-- A Meal entry carrying no notes: the seed procedure replaces its absent
notes by the empty draft text, so submitting yields `notes = some ""`,
not an absent field. -/
def noNotesMealEntry : LogEntry :=
  { id := "meal1"
    timestamp := ⟨2023, 1, 15, 10, 30, 0, 0⟩
    type := LogType.Meal
    mealSubtype := some MealSubtype.Given
    foodType := some "Kibble"
    notes := none }

/-- A normalized Meal entry, used to instantiate the amended idempotence
theorem. -/
def normalMealEntry : LogEntry :=
  { id := "meal2"
    timestamp := ⟨2023, 1, 15, 10, 30, 25, 500⟩
    type := LogType.Meal
    mealSubtype := some MealSubtype.Stolen
    foodType := some "Wet Food"
    notes := some "Morning meal" }

/-- A bathroom entry stored with no recorded activity (the data model's
"general bathroom break" shape). -/
def plainBathroomEntry : LogEntry :=
  { id := "bath1"
    timestamp := ⟨2023, 1, 16, 8, 0, 0, 0⟩
    type := LogType.Bathroom }

/-- A concrete backend clock value for instantiating the save theorems. -/
def demoNow : DateTime := ⟨2023, 2, 1, 12, 0, 0, 0⟩

/-- A one-document store holding a Meal entry, for instantiating the save
theorems. -/
def demoStore : Store :=
  [("a", { type := some LogType.Meal
           mealSubtype := some MealSubtype.Given
           foodType := some "Kibble"
           notes := some ""
           timestamp := some (TimestampValue.fromDate ⟨2023, 1, 15, 10, 30, 25, 500⟩) })]

/-- Coordinator state touched by `handleDeleteEntry` (App.tsx
lines 138-155). -/
structure AppState where
  logEntries : List LogEntry
  editingEntry : Option LogEntry
  error : Option String
  isLoading : Bool
deriving DecidableEq, Repr

/-- `handleDeleteEntry` (App.tsx lines 138-155). `deleteSucceeds` is the
outcome of the backend `deleteDoc` call and `errMsg` its error message
when it fails: on success the entry is filtered out of the in-memory
list (and the editing reference cleared if it matches); on failure the
list and editing reference are untouched and an error message is set. -/
def handleDeleteEntry (st : AppState) (idToDelete : String)
    (deleteSucceeds : Bool) (errMsg : String) : AppState :=
  if deleteSucceeds then
    { st with
        logEntries := st.logEntries.filter (fun e => e.id ≠ idToDelete)
        editingEntry :=
          match st.editingEntry with
          | some e => if e.id = idToDelete then none else some e
          | none => none
        error := none
        isLoading := false }
  else
    { st with
        error := some ("Failed to delete activity: " ++ errMsg)
        isLoading := false }

/-! ## Theorems -/

/-- C2: for every submission, a Meal-typed payload carries no `activity`
and no `poopSubtype`, and a Bathroom-typed payload carries no
`mealSubtype`, no `foodType` and no `notes`, regardless of the form
state reached before submitting. -/
theorem payload_field_separation (ee : Option LogEntry) (s : FormState) :
    (s.entryType = LogType.Meal →
      (handleSubmit ee s).1.activity = none ∧
      (handleSubmit ee s).1.poopSubtype = none) ∧
    (s.entryType = LogType.Bathroom →
      (handleSubmit ee s).1.mealSubtype = none ∧
      (handleSubmit ee s).1.foodType = none ∧
      (handleSubmit ee s).1.notes = none) := by
  unfold handleSubmit
  cases hty : s.entryType <;>
    cases ee <;>
    simp [hty] <;>
    (try split) <;>
    (try split) <;>
    simp

/-- Witness for `payload_field_separation` at the initial (Bathroom)
state and at a Meal state. -/
theorem payload_field_separation_witness :
    ((handleSubmit none initialFormState).1.mealSubtype = none ∧
     (handleSubmit none initialFormState).1.foodType = none ∧
     (handleSubmit none initialFormState).1.notes = none) ∧
    ((handleSubmit none (handleEntryTypeChange initialFormState LogType.Meal)).1.activity = none ∧
     (handleSubmit none (handleEntryTypeChange initialFormState LogType.Meal)).1.poopSubtype = none) :=
  ⟨(payload_field_separation none initialFormState).2 (by decide),
   (payload_field_separation none
      (handleEntryTypeChange initialFormState LogType.Meal)).1 (by decide)⟩

/-- C3: for every Bathroom submission, `poopSubtype` is omitted when the
selected activity is Pee, and equals the currently selected subtype
when the activity is Poop or Both. -/
theorem bathroom_poop_subtype_payload (ee : Option LogEntry) (s : FormState)
    (hb : s.entryType = LogType.Bathroom) :
    (s.bathroomActivity = BathroomActivity.Pee →
      (handleSubmit ee s).1.poopSubtype = none) ∧
    ((s.bathroomActivity = BathroomActivity.Poop ∨
      s.bathroomActivity = BathroomActivity.Both) →
      (handleSubmit ee s).1.poopSubtype = some s.poopSubtype) := by
  unfold handleSubmit
  cases ee <;>
    cases ha : s.bathroomActivity <;>
    simp [hb, ha] <;>
    (try split) <;>
    simp

/-- Witness for `bathroom_poop_subtype_payload`: the default state
submits no poop subtype; after selecting Poop the default Normal
subtype is submitted. -/
theorem bathroom_poop_subtype_payload_witness :
    (handleSubmit none initialFormState).1.poopSubtype = none ∧
    (handleSubmit none
      (handleBathroomActivityChange initialFormState BathroomActivity.Poop)).1.poopSubtype =
      some PoopSubtype.Normal :=
  ⟨(bathroom_poop_subtype_payload none initialFormState (by decide)).1 (by decide),
   (bathroom_poop_subtype_payload none
      (handleBathroomActivityChange initialFormState BathroomActivity.Poop)
      (by decide)).2 (Or.inl (by decide))⟩

/-- C4: for every Meal submission, `foodType` is the trimmed text, or
`"Kibble"` when that trim is empty, and `notes` is always present and
equal to the trimmed notes text. -/
theorem meal_payload_defaults (ee : Option LogEntry) (s : FormState)
    (hm : s.entryType = LogType.Meal) :
    (handleSubmit ee s).1.foodType =
      some (if jsTrim s.foodType = "" then "Kibble" else jsTrim s.foodType) ∧
    (handleSubmit ee s).1.notes = some (jsTrim s.mealNotes) := by
  unfold handleSubmit
  cases ee <;> simp [hm]
  all_goals try split
  all_goals try simp

/-- Witness for `meal_payload_defaults`: a Meal submission with
whitespace-only food type and notes `" Morning meal "` yields
`foodType = "Kibble"` and trimmed notes. -/
theorem meal_payload_defaults_witness :
    (handleSubmit none
      (setMealNotes (setFoodType (handleEntryTypeChange initialFormState LogType.Meal) "  ")
        " Morning meal ")).1.foodType = some "Kibble" ∧
    (handleSubmit none
      (setMealNotes (setFoodType (handleEntryTypeChange initialFormState LogType.Meal) "  ")
        " Morning meal ")).1.notes = some "Morning meal" := by
  have h := meal_payload_defaults none
    (setMealNotes (setFoodType (handleEntryTypeChange initialFormState LogType.Meal) "  ")
      " Morning meal ") (by decide)
  refine ⟨?_, ?_⟩
  · rw [h.1]; decide
  · rw [h.2]; decide

/-- C5: the payload carries an explicit timestamp exactly when the form
is editing an existing entry and both the date and time strings are
non-empty; in particular a new entry's payload never carries one. -/
theorem payload_timestamp_iff_editing (ee : Option LogEntry) (s : FormState) :
    ((handleSubmit ee s).1.timestamp).isSome ↔
      (ee.isSome ∧ s.editDate ≠ "" ∧ s.editTime ≠ "") := by
  unfold handleSubmit
  cases ee <;>
    cases hty : s.entryType <;>
    simp [hty] <;>
    (try split) <;>
    (try split) <;>
    simp_all

/-- Witness for `payload_timestamp_iff_editing`: an edit session seeded
from a stored entry has non-empty date/time strings and so submits an
explicit timestamp. -/
theorem payload_timestamp_iff_editing_witness :
    ((handleSubmit (some normalMealEntry)
      (resetForm (some normalMealEntry))).1.timestamp).isSome :=
  (payload_timestamp_iff_editing (some normalMealEntry)
    (resetForm (some normalMealEntry))).mpr ⟨rfl, by decide, by decide⟩

/-- C9: switching the activity type to Bathroom leaves the current
bathroom-activity selection unchanged, while resetting meal notes, meal
subtype, food type and poop subtype to their defaults. -/
theorem type_change_to_bathroom_frame (s : FormState) :
    (handleEntryTypeChange s LogType.Bathroom).bathroomActivity = s.bathroomActivity ∧
    (handleEntryTypeChange s LogType.Bathroom).mealNotes = "" ∧
    (handleEntryTypeChange s LogType.Bathroom).mealSubtype = MealSubtype.Given ∧
    (handleEntryTypeChange s LogType.Bathroom).foodType = "Kibble" ∧
    (handleEntryTypeChange s LogType.Bathroom).poopSubtype = PoopSubtype.Normal := by
  simp [handleEntryTypeChange]

/-- C10: every Bathroom payload carries `activity = some` of the current
selection, so a Bathroom payload with absent activity is unreachable
from the form; and editing an entry stored without an activity then
saving converts it to the explicit default Pee. -/
theorem bathroom_payload_activity_present :
    (∀ (ee : Option LogEntry) (s : FormState), s.entryType = LogType.Bathroom →
      (handleSubmit ee s).1.activity = some s.bathroomActivity) ∧
    (∀ e : LogEntry, e.type = LogType.Bathroom → e.activity = none →
      (handleSubmit (some e) (resetForm (some e))).1.activity =
        some BathroomActivity.Pee) := by
  constructor
  · intro ee s hb
    unfold handleSubmit
    cases ee <;>
      simp [hb] <;>
      (try split) <;>
      (try split) <;>
      simp
  · intro e hty hact
    unfold handleSubmit resetForm
    simp [hty, hact]
    all_goals try split
    all_goals try simp

/-- Witness for `bathroom_payload_activity_present`: the default state
submits `activity = Pee`, and a bathroom entry stored without an
activity resubmits as explicit Pee. -/
theorem bathroom_payload_activity_present_witness :
    (handleSubmit none initialFormState).1.activity = some BathroomActivity.Pee ∧
    (handleSubmit (some plainBathroomEntry)
      (resetForm (some plainBathroomEntry))).1.activity = some BathroomActivity.Pee :=
  ⟨bathroom_payload_activity_present.1 none initialFormState (by decide),
   bathroom_payload_activity_present.2 plainBathroomEntry (by decide) (by decide)⟩

/-- C1: when editing an existing entry with both date and time strings
non-empty, the submitted payload's timestamp has the calendar date the
edited date string denotes, the hour and minute the edited time string
denotes, and the seconds and milliseconds of the original entry's
timestamp. -/
theorem edited_timestamp_reconciliation (e : LogEntry) (s : FormState)
    (y mo d h mi : Nat)
    (hd : s.editDate ≠ "") (ht : s.editTime ≠ "")
    (hpd : parseDateOnly s.editDate = ⟨y, mo, d, 0, 0, 0, 0⟩)
    (hpt : parseTimeParts s.editTime = (h, mi)) :
    (handleSubmit (some e) s).1.timestamp =
      some ⟨y, mo, d, h, mi, e.timestamp.seconds, e.timestamp.milliseconds⟩ := by
  unfold handleSubmit
  cases hty : s.entryType <;>
    simp [hd, ht, hpd, hpt]

/-- Witness for `edited_timestamp_reconciliation`, at the spec's own
example: original timestamp 2023-01-15T10:30:25.500, edited date
2023-01-17, edited time 11:45 give payload timestamp
2023-01-17T11:45:25.500. -/
theorem edited_timestamp_reconciliation_witness :
    (handleSubmit (some normalMealEntry)
      (setEditTime (setEditDate (resetForm (some normalMealEntry)) "2023-01-17")
        "11:45")).1.timestamp = some ⟨2023, 1, 17, 11, 45, 25, 500⟩ :=
  edited_timestamp_reconciliation normalMealEntry
    (setEditTime (setEditDate (resetForm (some normalMealEntry)) "2023-01-17") "11:45")
    2023 1 17 11 45 (by decide) (by decide) (by decide) (by decide)

/-- C6: in the Coordinator's save operation, a new entry whose payload
carries no timestamp is stored with the server-assigned timestamp; an
update whose payload carries no timestamp leaves every stored
document's timestamp untouched; and an update with an explicit payload
timestamp overwrites the stored one. -/
theorem save_timestamp_handling (store : Store) (serverNow : DateTime)
    (newId uid : String) (entryData : LogEntryData) :
    (entryData.timestamp = none →
      ∃ doc, saveLogEntry store serverNow newId entryData none =
          store ++ [(newId, doc)] ∧
        doc.timestamp = some (TimestampValue.fromDate serverNow)) ∧
    (entryData.timestamp = none → ∀ i : Nat,
      ((saveLogEntry store serverNow newId entryData (some uid))[i]?).map
          (fun p => p.2.timestamp) =
        (store[i]?).map (fun p => p.2.timestamp)) ∧
    (∀ t, entryData.timestamp = some t → ∀ i : Nat, ∀ p,
      store[i]? = some p → p.1 = uid →
      ∃ doc, (saveLogEntry store serverNow newId entryData (some uid))[i]? =
          some (uid, doc) ∧
        doc.timestamp = some (TimestampValue.fromDate t)) := by
  refine ⟨?_, ?_, ?_⟩
  · intro hts
    unfold saveLogEntry prepareDataToSave
    rw [hts]
    exact ⟨_, rfl, rfl⟩
  · intro hts i
    unfold saveLogEntry
    rw [hts]
    rw [List.getElem?_map]
    cases hsi : store[i]? with
    | none => rfl
    | some p =>
        simp only [Option.map_some']
        split
        · simp [updateDocMerge, mergeField]
        · rfl
  · intro t hts i p hsi hpu
    unfold saveLogEntry
    rw [hts]
    rw [List.getElem?_map, hsi]
    refine ⟨updateDocMerge p.2 (prepareDataToSave entryData (some uid)), ?_, ?_⟩
    · simp [hpu]
    · simp [prepareDataToSave, hts, updateDocMerge, mergeField]

/-- Witness for `save_timestamp_handling`: a new Meal payload without a
timestamp is stored with the backend clock value; updating the stored
document with a timestamp-free payload leaves its stored timestamp in
place; updating with an explicit timestamp overwrites it. -/
theorem save_timestamp_handling_witness :
    (∃ doc, saveLogEntry demoStore demoNow "b" { type := LogType.Meal } none =
        demoStore ++ [("b", doc)] ∧
      doc.timestamp = some (TimestampValue.fromDate demoNow)) ∧
    ((saveLogEntry demoStore demoNow "b" { type := LogType.Meal } (some "a"))[0]?).map
        (fun p => p.2.timestamp) =
      (demoStore[0]?).map (fun p => p.2.timestamp) ∧
    (∃ doc, (saveLogEntry demoStore demoNow "b"
        { type := LogType.Meal, timestamp := some ⟨2023, 1, 17, 11, 45, 25, 500⟩ }
        (some "a"))[0]? = some ("a", doc) ∧
      doc.timestamp = some (TimestampValue.fromDate ⟨2023, 1, 17, 11, 45, 25, 500⟩)) :=
  ⟨(save_timestamp_handling demoStore demoNow "b" "a" { type := LogType.Meal }).1 rfl,
   (save_timestamp_handling demoStore demoNow "b" "a" { type := LogType.Meal }).2.1 rfl 0,
   (save_timestamp_handling demoStore demoNow "b" "a"
      { type := LogType.Meal, timestamp := some ⟨2023, 1, 17, 11, 45, 25, 500⟩ }).2.2
      ⟨2023, 1, 17, 11, 45, 25, 500⟩ rfl 0
      ("a", { type := some LogType.Meal
              mealSubtype := some MealSubtype.Given
              foodType := some "Kibble"
              notes := some ""
              timestamp := some (TimestampValue.fromDate ⟨2023, 1, 15, 10, 30, 25, 500⟩) })
      (by decide) rfl⟩

/-- C7 counterexample: seeding the form with a Meal entry whose notes
field is absent and immediately submitting yields `notes = some ""`,
an explicitly present empty notes field, so the payload does not
reproduce that entry's type-relevant fields. -/
theorem seed_submit_not_reproducing :
    ¬ seedSubmitReproduces noNotesMealEntry := by
  decide

/-- C7 amended: for every entry already in the form's normal shape
(type-relevant sub-fields present, `poopSubtype` present exactly when
the activity implies poop, text fields trimmed, food type non-empty),
seeding the form with the entry and immediately submitting reproduces
its type-relevant fields. -/
theorem seed_submit_reproduces_normalized (e : LogEntry)
    (hn : normalizedEntry e) : seedSubmitReproduces e := by
  rcases e with ⟨id, ts, ty, act, ps, nts, ms, ft⟩
  cases ty with
  | Meal =>
      simp only [normalizedEntry] at hn
      obtain ⟨hms, hft, hnts⟩ := hn
      cases ms with
      | none => simp at hms
      | some m =>
        cases ft with
        | none => simp at hft
        | some f =>
          cases nts with
          | none => simp at hnts
          | some n =>
            obtain ⟨hf1, hf2⟩ := hft
            unfold seedSubmitReproduces typeRelevantAgrees handleSubmit resetForm
            simp [jsOrString, hf1, hf2]
            constructor
            · split <;> simp [hf1, hf2]
            · split <;> (try split) <;> simp_all
  | Bathroom =>
      simp only [normalizedEntry] at hn
      cases act with
      | none => simp at hn
      | some a =>
        unfold seedSubmitReproduces typeRelevantAgrees handleSubmit resetForm
        cases a with
        | Pee =>
            simp at hn
            simp [hn]
            split <;> simp
        | Poop =>
            simp at hn
            cases ps with
            | none => simp at hn
            | some p =>
                simp
                split <;> simp
        | Both =>
            simp at hn
            cases ps with
            | none => simp at hn
            | some p =>
                simp
                split <;> simp

/-- Witness for `seed_submit_reproduces_normalized` at a concrete
normalized Meal entry. -/
theorem seed_submit_reproduces_normalized_witness :
    seedSubmitReproduces normalMealEntry :=
  seed_submit_reproduces_normalized normalMealEntry (by decide)

/-- C8: when the backend delete fails, the in-memory record list and the
editing reference are left unchanged and an error message is surfaced. -/
theorem delete_failure_frame (st : AppState) (idToDelete errMsg : String) :
    (handleDeleteEntry st idToDelete false errMsg).logEntries = st.logEntries ∧
    (handleDeleteEntry st idToDelete false errMsg).editingEntry = st.editingEntry ∧
    ((handleDeleteEntry st idToDelete false errMsg).error).isSome := by
  simp [handleDeleteEntry]

end DogLog
